import Mathlib

/-!
Verification of the risk-scoring logic of the Dropout-Prediction-System
repository.

The repository under verification ships a React front end; the scoring
back end (rule engine, classifier ensemble, risk aggregator, training
pipeline) is specified in spec.md but its implementation files are not
part of the source tree here.  Front-end logic (risk badges, risk
filters, the high-risk list, the best-model selection, the bulk
prediction ordering) is embedded directly from the JavaScript source;
the back-end scoring core is modelled from the spec, with each such
definition marked in its doc comment.

All JavaScript numbers are modelled as rationals; a possibly
null/undefined number is modelled as an optional rational.
-/

/-- Three-valued risk classification shared by the front-end badges and
the spec's risk_category enum. -/
inductive RiskCategory where
  | low : RiskCategory
  | medium : RiskCategory
  | high : RiskCategory
deriving DecidableEq, Repr

/-- Embeds the JavaScript idiom `x || d` applied to a possibly
missing/null number: undefined and null (here: none) and the falsy
number 0 are replaced by the default. -/
def jsOr (x : Option ℚ) (d : ℚ) : ℚ :=
  match x with
  | none => d
  | some v => if v = 0 then d else v

/-- Embeds the JavaScript comparison `c <= x` where x may be
undefined/null: a comparison against undefined or null is false
(null actually coerces to 0 in JS, and 0 >= 0.3 and 0 >= 0.7 are
both false, so for the thresholds used here the two coercions agree). -/
def jsGe (x : Option ℚ) (c : ℚ) : Bool :=
  match x with
  | none => false
  | some v => decide (c ≤ v)

/-- Default high risk threshold, from Settings initial state
(highRiskThreshold: 0.7) in src/unnamed/part_004. -/
def highThreshold : ℚ := 7/10

/-- Default medium risk threshold, from Settings initial state
(mediumRiskThreshold: 0.3) in src/unnamed/part_004. -/
def mediumThreshold : ℚ := 3/10

/-- Embeds getRiskBadge from src/frontend/src/pages/Notifications.js
(lines 514-522): riskScore >= 0.7 gives the High Risk badge,
else riskScore >= 0.3 gives Medium Risk, else Low Risk.  The score is
passed raw (line 683), so a missing score fails both comparisons. -/
def getRiskBadge (riskScore : Option ℚ) : RiskCategory :=
  if jsGe riskScore (7/10) then RiskCategory.high
  else if jsGe riskScore (3/10) then RiskCategory.medium
  else RiskCategory.low

/-- Embeds the risk-level branch of filterStudents in
src/frontend/src/pages/Notifications.js (lines 493-502): the score is
coalesced with `|| 0`, then high keeps >= 0.7, medium keeps
[0.3, 0.7), low keeps < 0.3, any other filter keeps everything. -/
def riskFilterMatches (riskFilter : String) (score : Option ℚ) : Bool :=
  if riskFilter = "all" then true
  else
    let riskScore := jsOr score 0
    if riskFilter = "high" then decide ((7:ℚ)/10 ≤ riskScore)
    else if riskFilter = "medium" then
      decide ((3:ℚ)/10 ≤ riskScore ∧ riskScore < 7/10)
    else if riskFilter = "low" then decide (riskScore < (3:ℚ)/10)
    else true

/-- Embeds the filter of fetchHighRiskStudents in
src/frontend/src/pages/Notifications.js (lines 72-84): keeps students
whose `dropout_risk_score || 0` is at least the configured
highRiskThreshold.  Students are represented by their optional score. -/
def fetchHighRiskStudents (threshold : ℚ) (students : List (Option ℚ)) :
    List (Option ℚ) :=
  students.filter (fun s => decide (threshold ≤ jsOr s 0))

/-- One bulk prediction row as consumed by predictBulkStudents in
src/unnamed/part_000. -/
structure Prediction where
  risk_level : String
  probability_high_risk : ℚ
deriving DecidableEq, Repr

/-- Embeds the comparator of predictBulkStudents in src/unnamed/part_000
(lines 446-451) as the relation "a sorts no later than b": the
comparator returns -1 when a is high and b is not, 1 when b is high and
a is not, and otherwise b.probability_high_risk - a.probability_high_risk,
so a precedes-or-ties b exactly when a is high and b is not, or both are
on the same side of "high" and b's probability is at most a's. -/
def predLe (a b : Prediction) : Bool :=
  if a.risk_level = "high" ∧ ¬ b.risk_level = "high" then true
  else if ¬ a.risk_level = "high" ∧ b.risk_level = "high" then false
  else decide (b.probability_high_risk ≤ a.probability_high_risk)

/-- Embeds sortedPredictions of predictBulkStudents in
src/unnamed/part_000 (lines 446-451): the response predictions sorted
by the comparator, modelled with a merge sort over predLe. -/
def sortedPredictions (predictions : List Prediction) : List Prediction :=
  predictions.mergeSort predLe

/-- Modelled from the spec: the Risk Aggregator's risk_category step
(spec 4.4 step 4), whose implementation is not in the source tree:
HIGH if risk_score >= high_threshold, else MEDIUM if
risk_score >= medium_threshold, else LOW. -/
def riskCategory (mediumT highT score : ℚ) : RiskCategory :=
  if highT ≤ score then RiskCategory.high
  else if mediumT ≤ score then RiskCategory.medium
  else RiskCategory.low

/-- Modelled from the spec: StudentSnapshot (spec section 3), the
immutable input to scoring; the back-end record type is not in the
source tree.  prev_cgpa_delta is the previous-window delta the caller
supplies for the continuous-drop rule (spec 4.2 rule 2). -/
structure StudentSnapshot where
  attendance_percentage : ℚ
  cgpa : ℚ
  backlog_count : ℕ
  fee_overdue_days : ℕ
  semester : ℕ
  department : ℕ
  attendance_delta : ℚ
  cgpa_delta : ℚ
  prev_cgpa_delta : ℚ
deriving DecidableEq, Repr

/-- Modelled from the spec: one triggered rule instance (spec section 3,
RuleFlag); the back-end type is not in the source tree. -/
structure RuleFlag where
  rule_id : ℕ
  severity_weight : ℚ
  reason : String
deriving DecidableEq, Repr

/-- Modelled from the spec: Rule Engine evaluate_rules (spec 4.2), whose
implementation is not in the source tree.  The four predicates are
evaluated independently, in the fixed order 1-4; every matching rule
fires. -/
def evaluate_rules (s : StudentSnapshot) : List RuleFlag :=
  (if s.attendance_percentage < 60 then
    [RuleFlag.mk 1 (9/10) "attendance below 60%"] else []) ++
  (if s.cgpa_delta < 0 ∧ s.prev_cgpa_delta < 0 then
    [RuleFlag.mk 2 (6/10) "continuous score drop"] else []) ++
  (if 2 ≤ s.backlog_count then
    [RuleFlag.mk 3 (8/10) "multiple backlogs"] else []) ++
  (if 30 < s.fee_overdue_days then
    [RuleFlag.mk 4 (5/10) "fee overdue"] else [])

/-- Modelled from the spec: the composite rule risk score (spec 4.2),
whose implementation is not in the source tree: the maximum
severity_weight among fired rules, 0.0 when none fired. -/
def rule_score (s : StudentSnapshot) : ℚ :=
  (evaluate_rules s).foldl (fun m f => max m f.severity_weight) 0

/-- Modelled from the spec: Feature Extractor extract (spec 4.1), whose
implementation is not in the source tree: a fixed-order numeric vector
with attendance and cgpa normalized to [0,1], counts passed through,
and the trend deltas as signed values. -/
def extract (s : StudentSnapshot) : List ℚ :=
  [s.attendance_percentage / 100, s.cgpa / 10,
   (s.backlog_count : ℚ), (s.fee_overdue_days : ℚ),
   (s.semester : ℚ), (s.department : ℚ),
   s.attendance_delta, s.cgpa_delta]

/-- Modelled from the spec: a fitted classifier (spec section 3,
TrainedModel); the back-end type is not in the source tree.  The
classifier's predicted probability of high risk is kept abstract as a
function of the feature vector; f1_score and accuracy are the held-out
metrics the front end reads. -/
structure TrainedModel where
  predictProb : List ℚ → ℚ
  f1_score : ℚ
  accuracy : ℚ

/-- Embeds the bestModel reduce of src/frontend/src/pages/Analytics.js
(lines 287-299) and src/unnamed/part_004 (lines 343-347): fold over the
named performance entries keeping the entry whose f1_score is strictly
larger than the best so far, starting from null. -/
def bestModel (metrics : List (String × TrainedModel)) :
    Option (String × TrainedModel) :=
  metrics.foldl
    (fun best nd =>
      match best with
      | none => some nd
      | some b => if b.2.f1_score < nd.2.f1_score then some nd else some b)
    none

/-- Modelled from the spec: the error raised by the Classifier Ensemble
when no TrainedModel exists (spec 4.3); the back-end error taxonomy is
not in the source tree. -/
inductive MLError where
  | modelNotTrained : MLError
deriving DecidableEq, Repr

/-- Modelled from the spec: the Classifier Ensemble's model store keyed
by name (spec 4.3); the back-end state is not in the source tree. -/
structure Ensemble where
  models : List (String × TrainedModel)

/-- Modelled from the spec: Classifier Ensemble predict (spec 4.3),
whose implementation is not in the source tree.  A named, present model
is used; otherwise the designated default is the bestModel selection
(highest F1 at last training); with no trained model at all it fails
with ModelNotTrainedError. -/
def predict (e : Ensemble) (features : List ℚ) (model_name : Option String) :
    Except MLError (ℚ × String) :=
  match model_name.bind (fun n => e.models.find? (fun p => p.1 == n)) with
  | some nm => Except.ok (nm.2.predictProb features, nm.1)
  | none =>
    match bestModel e.models with
    | some nm => Except.ok (nm.2.predictProb features, nm.1)
    | none => Except.error MLError.modelNotTrained

/-- Modelled from the spec: the training-only error (spec 4.5, section
7); the back-end error taxonomy is not in the source tree. -/
inductive TrainError where
  | insufficientData : TrainError
deriving DecidableEq, Repr

/-- Default minimum training-set size, from Settings initial state
(minTrainingData: 100) in src/unnamed/part_004 (line 14). -/
def minTrainingData : ℕ := 100

/-- Modelled from the spec: the model-fitting stage of the Training
Pipeline (spec 4.5), whose implementation is not in the source tree and
whose statistical internals are an explicit non-goal of the spec
(section 1).  It fits the configured classifier types on the data and
returns them with held-out metrics; here each classifier predicts the
positive-label rate of the dataset and the metrics are left abstractly
derived from that same rate, which is all downstream logic observes. -/
def fitModels (ds : List (StudentSnapshot × Bool)) :
    List (String × TrainedModel) :=
  let rate : ℚ := (ds.filter (fun r => r.2)).length / ds.length
  [("logistic_regression", TrainedModel.mk (fun _ => rate) rate rate),
   ("decision_tree", TrainedModel.mk (fun _ => rate) rate rate),
   ("random_forest", TrainedModel.mk (fun _ => rate) rate rate)]

/-- Modelled from the spec: Training Pipeline train (spec 4.5), whose
implementation is not in the source tree: fails with
InsufficientDataError when the labeled dataset is smaller than the
configured minimum, otherwise returns the freshly fitted model set. -/
def train (ds : List (StudentSnapshot × Bool)) (minData : ℕ) :
    Except TrainError (List (String × TrainedModel)) :=
  if ds.length < minData then Except.error TrainError.insufficientData
  else Except.ok (fitModels ds)

/-- Modelled from the spec: the atomic swap of the Classifier Ensemble's
active models after training (spec 4.5): on success the active set is
replaced wholesale, on failure the previously active models are left
untouched and the error is reported to the caller. -/
def trainAndSwap (e : Ensemble) (ds : List (StudentSnapshot × Bool))
    (minData : ℕ) : Ensemble × Option TrainError :=
  match train ds minData with
  | Except.error err => (e, some err)
  | Except.ok fitted => (Ensemble.mk fitted, none)

/-- Modelled from the spec: the scoring core's output record
(spec section 3, RiskAssessment); the back-end type is not in the
source tree. -/
structure RiskAssessment where
  risk_score : ℚ
  risk_category : RiskCategory
  confidence : ℚ
  contributing_reasons : List String
  model_used : String
deriving DecidableEq, Repr

/-- Modelled from the spec: the Risk Aggregator's confidence step
(spec 4.4 step 5), whose implementation is not in the source tree:
base 0.5, plus 0.25 when rule engine and model agree on the same side
of the high threshold, plus 0.25 when at least two rules fired, capped
at 0.95. -/
def confidenceOf (highT ruleScore : ℚ) (modelProb : Option ℚ)
    (numRules : ℕ) : ℚ :=
  let agree : ℚ :=
    match modelProb with
    | some p => if (highT ≤ ruleScore ↔ highT ≤ p) then 1/4 else 0
    | none => 0
  let corroborate : ℚ := if 2 ≤ numRules then 1/4 else 0
  min (1/2 + agree + corroborate) (19/20)

/-- Modelled from the spec: Risk Aggregator assess (spec 4.4), whose
implementation is not in the source tree.  Runs the rule engine, then
the classifier via the feature extractor; a ModelNotTrainedError from
predict is absorbed here by degrading to rule-only scoring, so assess
itself is total and returns a plain RiskAssessment. -/
def assess (e : Ensemble) (mediumT highT : ℚ) (s : StudentSnapshot) :
    RiskAssessment :=
  let flags := evaluate_rules s
  let ruleScore := rule_score s
  let ruleReasons := flags.map (fun f => f.reason)
  match predict e (extract s) none with
  | Except.error _ =>
    RiskAssessment.mk ruleScore (riskCategory mediumT highT ruleScore)
      (confidenceOf highT ruleScore none flags.length) ruleReasons "rule_only"
  | Except.ok pm =>
    let score := 2/5 * ruleScore + 3/5 * pm.1
    RiskAssessment.mk score (riskCategory mediumT highT score)
      (confidenceOf highT ruleScore (some pm.1) flags.length)
      (ruleReasons ++
        (if highT ≤ pm.1 then ["elevated probability from " ++ pm.2] else []))
      pm.2

/-- Concrete classifier used in examples: predicts probability 0.05
for every feature vector. -/
def exampleModelLowProb : TrainedModel :=
  TrainedModel.mk (fun _ => 1/20) (4/5) (4/5)

/-- Concrete single-model ensemble used in examples. -/
def exampleEnsemble : Ensemble :=
  Ensemble.mk [("random_forest", exampleModelLowProb)]

/-- Concrete healthy snapshot from the spec example: attendance 90,
cgpa 8.5, no backlogs, fees current, no negative trend. -/
def healthySnapshot : StudentSnapshot :=
  StudentSnapshot.mk 90 (17/2) 0 0 1 0 0 0 0

/-- Concrete classifier used in the model-selection example, with
F1 score 0.6. -/
def exampleModelA : TrainedModel :=
  TrainedModel.mk (fun _ => 1/8) (3/5) (3/5)

/-- Concrete classifier used in the model-selection example, with
F1 score 0.8. -/
def exampleModelB : TrainedModel :=
  TrainedModel.mk (fun _ => 1/4) (4/5) (4/5)

/-- Concrete two-model ensemble used in the model-selection example. -/
def twoModelEnsemble : Ensemble :=
  Ensemble.mk
    [("logistic_regression", exampleModelA), ("random_forest", exampleModelB)]

/-- Concrete 50-row labeled dataset, below the default minimum of
100 rows. -/
def smallDataset : List (StudentSnapshot × Bool) :=
  List.replicate 50 (healthySnapshot, true)

/-- Claim C1: for every risk_score, the assigned risk category is HIGH
if and only if risk_score >= high_threshold, MEDIUM if and only if
medium_threshold <= risk_score < high_threshold, and LOW otherwise; the
category depends on nothing but risk_score and the two thresholds, and
the front-end getRiskBadge agrees with it at the default thresholds
0.3 and 0.7. -/
theorem risk_category_pure_threshold_fn (mT hT score : ℚ) :
    (riskCategory mT hT score = RiskCategory.high ↔ hT ≤ score) ∧
    (riskCategory mT hT score = RiskCategory.medium ↔ mT ≤ score ∧ score < hT) ∧
    (riskCategory mT hT score = RiskCategory.low ↔ score < mT ∧ score < hT) ∧
    getRiskBadge (some score) = riskCategory mediumThreshold highThreshold score := by
  refine ⟨?_, ?_, ?_, ?_⟩
  · rcases le_or_lt hT score with h1 | h1
    · rw [riskCategory, if_pos h1]; simp [h1]
    · rw [riskCategory, if_neg (not_le.mpr h1)]
      rcases le_or_lt mT score with h2 | h2
      · rw [if_pos h2]; simp; linarith
      · rw [if_neg (not_le.mpr h2)]; simp; linarith
  · rcases le_or_lt hT score with h1 | h1
    · rw [riskCategory, if_pos h1]; simp; intro _; linarith
    · rw [riskCategory, if_neg (not_le.mpr h1)]
      rcases le_or_lt mT score with h2 | h2
      · rw [if_pos h2]; simp [h2, h1]
      · rw [if_neg (not_le.mpr h2)]; simp; intro h; linarith
  · rcases le_or_lt hT score with h1 | h1
    · rw [riskCategory, if_pos h1]; simp; intro _; linarith
    · rw [riskCategory, if_neg (not_le.mpr h1)]
      rcases le_or_lt mT score with h2 | h2
      · rw [if_pos h2]; simp; intro h; linarith
      · rw [if_neg (not_le.mpr h2)]; simp [h2, h1]
  · simp [getRiskBadge, jsGe, riskCategory, mediumThreshold, highThreshold]

/-- Witness for C1: a score of 0.5 with the default thresholds is
classified MEDIUM, and the front-end badge agrees there. -/
theorem risk_category_pure_threshold_fn_witness :
    riskCategory (3/10) (7/10) (1/2) = RiskCategory.medium ∧
    getRiskBadge (some (1/2)) = riskCategory mediumThreshold highThreshold (1/2) :=
  ⟨(risk_category_pure_threshold_fn (3/10) (7/10) (1/2)).2.1.mpr (by norm_num),
   (risk_category_pure_threshold_fn (3/10) (7/10) (1/2)).2.2.2⟩

/-- Helper: the fold computing the rule score never drops below its
initial accumulator. -/
theorem foldlMax_init_le (l : List RuleFlag) (a : ℚ) :
    a ≤ l.foldl (fun m f => max m f.severity_weight) a := by
  induction l generalizing a with
  | nil => exact le_refl a
  | cons hd tl ih => exact le_trans (le_max_left a hd.severity_weight) (ih _)

/-- Helper: every list member's severity is bounded by the fold
computing the rule score. -/
theorem foldlMax_mem_le (l : List RuleFlag) (a : ℚ) (f : RuleFlag)
    (hf : f ∈ l) :
    f.severity_weight ≤ l.foldl (fun m g => max m g.severity_weight) a := by
  induction l generalizing a with
  | nil => cases hf
  | cons hd tl ih =>
    rcases List.mem_cons.mp hf with h | h
    · subst h
      exact le_trans (le_max_right a f.severity_weight) (foldlMax_init_le tl _)
    · exact ih _ h

/-- Helper: the fold computing the rule score returns either its
initial accumulator or the severity of some list member. -/
theorem foldlMax_attained (l : List RuleFlag) (a : ℚ) :
    l.foldl (fun m g => max m g.severity_weight) a = a ∨
      ∃ f ∈ l, l.foldl (fun m g => max m g.severity_weight) a =
        f.severity_weight := by
  induction l generalizing a with
  | nil => exact Or.inl rfl
  | cons hd tl ih =>
    rcases ih (max a hd.severity_weight) with h | h
    · rcases max_choice a hd.severity_weight with hm | hm
      · exact Or.inl (by rw [List.foldl_cons, h, hm])
      · exact Or.inr ⟨hd, List.mem_cons_self hd tl, by rw [List.foldl_cons, h, hm]⟩
    · rcases h with ⟨f, hfm, hfe⟩
      exact Or.inr ⟨f, List.mem_cons_of_mem hd hfm, hfe⟩

/-- Helper: every fired rule carries a strictly positive severity
weight (the four rules weigh 0.9, 0.6, 0.8 and 0.5). -/
theorem evaluate_rules_weight_pos (s : StudentSnapshot) (f : RuleFlag)
    (hf : f ∈ evaluate_rules s) : 0 < f.severity_weight := by
  unfold evaluate_rules at hf
  split_ifs at hf <;>
    simp only [List.mem_append, List.mem_singleton, List.not_mem_nil,
      or_false, false_or] at hf <;>
    (try casesm* _ ∨ _) <;> (try subst_vars) <;> norm_num

/-- Claim C2: for every snapshot the composite rule risk score equals
the maximum severity_weight among the fired rules (every fired rule is
bounded by it, and it is attained by some fired rule when any fired),
it is 0.0 when no rule fires, and for the snapshot with
backlog_count = 3 and fee_overdue_days = 40 and no other rule firing it
equals max(0.8, 0.5) = 0.8. -/
theorem rule_score_max_severity (s : StudentSnapshot) :
    (∀ f ∈ evaluate_rules s, f.severity_weight ≤ rule_score s) ∧
    (evaluate_rules s ≠ [] →
      ∃ f ∈ evaluate_rules s, rule_score s = f.severity_weight) ∧
    (evaluate_rules s = [] → rule_score s = 0) ∧
    rule_score (StudentSnapshot.mk 90 8 3 40 1 0 0 0 0) = 4/5 := by
  refine ⟨fun f hf => foldlMax_mem_le _ 0 f hf, ?_, ?_, ?_⟩
  · intro hne
    rcases foldlMax_attained (evaluate_rules s) 0 with h | h
    · rcases List.exists_mem_of_ne_nil (evaluate_rules s) hne with ⟨f0, hf0⟩
      have h1 : f0.severity_weight ≤ rule_score s := foldlMax_mem_le _ 0 f0 hf0
      have h2 := evaluate_rules_weight_pos s f0 hf0
      have h0 : rule_score s = 0 := h
      exact (lt_irrefl (0 : ℚ) (by linarith)).elim
    · exact h
  · intro hemp
    unfold rule_score
    rw [hemp]
    rfl
  · norm_num [rule_score, evaluate_rules, max_def]

/-- Witness for C2: the backlog-and-fee snapshot scores 0.8, and its
fired backlog rule's severity 0.8 is bounded by the rule score. -/
theorem rule_score_max_severity_witness :
    rule_score (StudentSnapshot.mk 90 8 3 40 1 0 0 0 0) = 4/5 ∧
    (8 : ℚ)/10 ≤ rule_score (StudentSnapshot.mk 90 8 3 40 1 0 0 0 0) :=
  ⟨(rule_score_max_severity (StudentSnapshot.mk 90 8 3 40 1 0 0 0 0)).2.2.2,
   (rule_score_max_severity (StudentSnapshot.mk 90 8 3 40 1 0 0 0 0)).1
     (RuleFlag.mk 3 (8/10) "multiple backlogs")
     (by norm_num [evaluate_rules])⟩

/-- Claim C3: if no TrainedModel exists, assess returns a
RiskAssessment whose model_used is "rule_only" and whose risk_score is
the rule risk score; assess is a total function into RiskAssessment, so
the ModelNotTrainedError raised by predict is absorbed by the
aggregator and never reaches the caller. -/
theorem assess_rule_only_degradation (mT hT : ℚ) (s : StudentSnapshot)
    (e : Ensemble) (h : e.models = []) :
    (assess e mT hT s).model_used = "rule_only" ∧
    (assess e mT hT s).risk_score = rule_score s := by
  obtain ⟨ms⟩ := e
  simp only at h
  subst h
  constructor <;> rfl

/-- Witness for C3: assessing a concrete snapshot against the empty
ensemble yields model_used "rule_only" and the rule score. -/
theorem assess_rule_only_degradation_witness :
    (assess (Ensemble.mk []) mediumThreshold highThreshold
      (StudentSnapshot.mk 55 (36/5) 0 0 1 0 0 0 0)).model_used = "rule_only" ∧
    (assess (Ensemble.mk []) mediumThreshold highThreshold
      (StudentSnapshot.mk 55 (36/5) 0 0 1 0 0 0 0)).risk_score =
      rule_score (StudentSnapshot.mk 55 (36/5) 0 0 1 0 0 0 0) :=
  assess_rule_only_degradation mediumThreshold highThreshold
    (StudentSnapshot.mk 55 (36/5) 0 0 1 0 0 0 0) (Ensemble.mk []) rfl

/-- Helper: the confidence computation stays within [0, 0.95] for any
inputs. -/
theorem confidenceOf_bounds (highT ruleScore : ℚ) (modelProb : Option ℚ)
    (numRules : ℕ) :
    0 ≤ confidenceOf highT ruleScore modelProb numRules ∧
    confidenceOf highT ruleScore modelProb numRules ≤ 19/20 := by
  unfold confidenceOf
  constructor
  · apply le_min
    · rcases modelProb with _ | p
      · split_ifs <;> norm_num
      · have hA : (0 : ℚ) ≤ (if highT ≤ ruleScore ↔ highT ≤ p then (1 : ℚ)/4 else 0) := by
          split_ifs <;> norm_num
        have hB : (0 : ℚ) ≤ (if 2 ≤ numRules then (1 : ℚ)/4 else 0) := by
          split_ifs <;> norm_num
        linarith
    · norm_num
  · exact min_le_right _ _

/-- Claim C5: for every snapshot and model state, the confidence of the
returned RiskAssessment lies in [0, 0.95] (base 0.5 plus the two 0.25
bonuses, capped at 0.95), so it is never reported as 1.0. -/
theorem assess_confidence_in_range (e : Ensemble) (mT hT : ℚ)
    (s : StudentSnapshot) :
    0 ≤ (assess e mT hT s).confidence ∧
    (assess e mT hT s).confidence ≤ 19/20 := by
  unfold assess
  rcases hp : predict e (extract s) none with err | pm <;>
    simp only [hp] <;> exact confidenceOf_bounds _ _ _ _

/-- Witness for C5: the confidence for a concrete snapshot against the
empty ensemble is within [0, 0.95]. -/
theorem assess_confidence_in_range_witness :
    0 ≤ (assess (Ensemble.mk []) mediumThreshold highThreshold
      (StudentSnapshot.mk 55 (36/5) 0 0 1 0 0 0 0)).confidence ∧
    (assess (Ensemble.mk []) mediumThreshold highThreshold
      (StudentSnapshot.mk 55 (36/5) 0 0 1 0 0 0 0)).confidence ≤ 19/20 :=
  assess_confidence_in_range (Ensemble.mk []) mediumThreshold highThreshold
    (StudentSnapshot.mk 55 (36/5) 0 0 1 0 0 0 0)

/-- Claim C4: when the classifier yields a probability p, the final
risk_score is the weighted blend 0.4 * rule_score + 0.6 * p; when no
model is available, risk_score is the rule score; and the spec example
(healthy snapshot, model probability 0.05) scores 0.03 and is LOW. -/
theorem assess_weighted_blend (mT hT : ℚ) (s : StudentSnapshot)
    (e : Ensemble) :
    (∀ p name, predict e (extract s) none = Except.ok (p, name) →
      (assess e mT hT s).risk_score = 2/5 * rule_score s + 3/5 * p) ∧
    (∀ err, predict e (extract s) none = Except.error err →
      (assess e mT hT s).risk_score = rule_score s) ∧
    (assess exampleEnsemble mediumThreshold highThreshold
      healthySnapshot).risk_score = 3/100 ∧
    (assess exampleEnsemble mediumThreshold highThreshold
      healthySnapshot).risk_category = RiskCategory.low := by
  refine ⟨?_, ?_, ?_, ?_⟩
  · intro p name hp
    unfold assess
    rw [hp]
  · intro err hp
    unfold assess
    rw [hp]
  · norm_num [assess, predict, bestModel, evaluate_rules, rule_score,
      extract, exampleEnsemble, exampleModelLowProb, healthySnapshot,
      riskCategory, confidenceOf, mediumThreshold, highThreshold]
  · norm_num [assess, predict, bestModel, evaluate_rules, rule_score,
      extract, exampleEnsemble, exampleModelLowProb, healthySnapshot,
      riskCategory, confidenceOf, mediumThreshold, highThreshold]

/-- Witness for C4: on the healthy snapshot with the 0.05-probability
model, the blend gives 0.4*0 + 0.6*0.05, which is 0.03 and LOW. -/
theorem assess_weighted_blend_witness :
    (assess exampleEnsemble mediumThreshold highThreshold
      healthySnapshot).risk_score =
      2/5 * rule_score healthySnapshot + 3/5 * (1/20) ∧
    (assess exampleEnsemble mediumThreshold highThreshold
      healthySnapshot).risk_score = 3/100 ∧
    (assess exampleEnsemble mediumThreshold highThreshold
      healthySnapshot).risk_category = RiskCategory.low :=
  ⟨(assess_weighted_blend mediumThreshold highThreshold healthySnapshot
      exampleEnsemble).1 (1/20) "random_forest" rfl,
   (assess_weighted_blend mediumThreshold highThreshold healthySnapshot
      exampleEnsemble).2.2.1,
   (assess_weighted_blend mediumThreshold highThreshold healthySnapshot
      exampleEnsemble).2.2.2⟩

/-- Claim C8: assess is deterministic and idempotent in its input: two
calls on the identical snapshot with the same model state yield
identical risk_score, risk_category, confidence, contributing_reasons
(in the same order) and model_used; assess is a pure function of the
ensemble, the thresholds and the snapshot, with no other state. -/
theorem assess_deterministic (e : Ensemble) (mT hT : ℚ)
    (s1 s2 : StudentSnapshot) (h : s1 = s2) :
    (assess e mT hT s1).risk_score = (assess e mT hT s2).risk_score ∧
    (assess e mT hT s1).risk_category = (assess e mT hT s2).risk_category ∧
    (assess e mT hT s1).confidence = (assess e mT hT s2).confidence ∧
    (assess e mT hT s1).contributing_reasons =
      (assess e mT hT s2).contributing_reasons ∧
    (assess e mT hT s1).model_used = (assess e mT hT s2).model_used := by
  subst h
  exact ⟨rfl, rfl, rfl, rfl, rfl⟩

/-- Witness for C8: two assessments of the same concrete snapshot
against the same ensemble agree on every output field. -/
theorem assess_deterministic_witness :
    (assess exampleEnsemble mediumThreshold highThreshold
      healthySnapshot).risk_score =
    (assess exampleEnsemble mediumThreshold highThreshold
      healthySnapshot).risk_score ∧
    (assess exampleEnsemble mediumThreshold highThreshold
      healthySnapshot).risk_category =
    (assess exampleEnsemble mediumThreshold highThreshold
      healthySnapshot).risk_category ∧
    (assess exampleEnsemble mediumThreshold highThreshold
      healthySnapshot).confidence =
    (assess exampleEnsemble mediumThreshold highThreshold
      healthySnapshot).confidence ∧
    (assess exampleEnsemble mediumThreshold highThreshold
      healthySnapshot).contributing_reasons =
    (assess exampleEnsemble mediumThreshold highThreshold
      healthySnapshot).contributing_reasons ∧
    (assess exampleEnsemble mediumThreshold highThreshold
      healthySnapshot).model_used =
    (assess exampleEnsemble mediumThreshold highThreshold
      healthySnapshot).model_used :=
  assess_deterministic exampleEnsemble mediumThreshold highThreshold
    healthySnapshot healthySnapshot rfl

/-- Claim C6: train fails with InsufficientDataError whenever the
labeled dataset has fewer rows than the configured minimum, and the
swap step then leaves the previously active models unchanged. -/
theorem train_insufficient_data (e : Ensemble)
    (ds : List (StudentSnapshot × Bool)) (minData : ℕ)
    (h : ds.length < minData) :
    train ds minData = Except.error TrainError.insufficientData ∧
    trainAndSwap e ds minData = (e, some TrainError.insufficientData) := by
  have ht : train ds minData = Except.error TrainError.insufficientData := by
    unfold train
    rw [if_pos h]
  refine ⟨ht, ?_⟩
  unfold trainAndSwap
  rw [ht]

/-- Witness for C6: a 50-row dataset is below the default minimum of
100, training on it reports InsufficientDataError, and the two-model
ensemble's active models are unchanged. -/
theorem train_insufficient_data_witness :
    train smallDataset minTrainingData =
      Except.error TrainError.insufficientData ∧
    trainAndSwap twoModelEnsemble smallDataset minTrainingData =
      (twoModelEnsemble, some TrainError.insufficientData) :=
  train_insufficient_data twoModelEnsemble smallDataset minTrainingData
    (by simp [smallDataset, minTrainingData])

/-- Helper: folding the best-model step from some starting entry yields
an entry drawn from the start or the list whose F1 score dominates both
the start and every list entry. -/
theorem bestModelFold_spec (l : List (String × TrainedModel))
    (b : String × TrainedModel) :
    ∃ c, l.foldl
        (fun best nd =>
          match best with
          | none => some nd
          | some bb =>
            if bb.2.f1_score < nd.2.f1_score then some nd else some bb)
        (some b) = some c ∧
      (c = b ∨ c ∈ l) ∧ b.2.f1_score ≤ c.2.f1_score ∧
      ∀ p ∈ l, p.2.f1_score ≤ c.2.f1_score := by
  induction l generalizing b with
  | nil => exact ⟨b, rfl, Or.inl rfl, le_refl _, by simp⟩
  | cons hd tl ih =>
    by_cases hlt : b.2.f1_score < hd.2.f1_score
    · rcases ih hd with ⟨c, hc, hmem, hge, hall⟩
      refine ⟨c, ?_, ?_, le_trans (le_of_lt hlt) hge, ?_⟩
      · rw [List.foldl_cons]
        simpa [hlt] using hc
      · rcases hmem with h | h
        · exact Or.inr (h ▸ List.mem_cons_self hd tl)
        · exact Or.inr (List.mem_cons_of_mem hd h)
      · intro p hp
        rcases List.mem_cons.mp hp with h | h
        · exact h ▸ hge
        · exact hall p h
    · rcases ih b with ⟨c, hc, hmem, hge, hall⟩
      refine ⟨c, ?_, ?_, hge, ?_⟩
      · rw [List.foldl_cons]
        simpa [hlt] using hc
      · rcases hmem with h | h
        · exact Or.inl h
        · exact Or.inr (List.mem_cons_of_mem hd h)
      · intro p hp
        rcases List.mem_cons.mp hp with h | h
        · exact h ▸ le_trans (not_lt.mp hlt) hge
        · exact hall p h

/-- Claim C7: predict with a present named model uses that model;
predict without a model name, or with an absent name, falls back to the
default selection, and that default is a stored model whose F1 score is
at least every stored model's F1 score. -/
theorem predict_model_selection (e : Ensemble) (f : List ℚ) :
    (∀ n nm, e.models.find? (fun p => p.1 == n) = some nm →
      predict e f (some n) = Except.ok (nm.2.predictProb f, nm.1)) ∧
    (∀ n, e.models.find? (fun p => p.1 == n) = none →
      predict e f (some n) = predict e f none) ∧
    (∀ nm, bestModel e.models = some nm →
      predict e f none = Except.ok (nm.2.predictProb f, nm.1) ∧
      nm ∈ e.models ∧ ∀ p ∈ e.models, p.2.f1_score ≤ nm.2.f1_score) := by
  refine ⟨?_, ?_, ?_⟩
  · intro n nm h
    simp [predict, h]
  · intro n h
    simp [predict, h]
  · intro nm h
    refine ⟨by simp [predict, h], ?_⟩
    rcases he : e.models with _ | ⟨hd, tl⟩
    · rw [bestModel, he] at h
      simp at h
    · rw [bestModel, he, List.foldl_cons] at h
      rcases bestModelFold_spec tl hd with ⟨c, hc, hmem, hge, hall⟩
      rw [hc] at h
      obtain rfl : c = nm := Option.some_injective _ h
      constructor
      · rcases hmem with h2 | h2
        · exact h2 ▸ List.mem_cons_self hd tl
        · exact List.mem_cons_of_mem hd h2
      · intro p hp
        rcases List.mem_cons.mp hp with h2 | h2
        · exact h2 ▸ hge
        · exact hall p h2

/-- Witness for C7: in the two-model ensemble the default selection is
the random forest with the larger F1 score 0.8, and its probability is
returned; the logistic model's F1 score 0.6 is dominated. -/
theorem predict_model_selection_witness :
    predict twoModelEnsemble [1] none =
      Except.ok (exampleModelB.predictProb [1], "random_forest") ∧
    exampleModelA.f1_score ≤ exampleModelB.f1_score :=
  ⟨((predict_model_selection twoModelEnsemble [1]).2.2
      ("random_forest", exampleModelB)
      (by norm_num [bestModel, twoModelEnsemble, exampleModelA,
        exampleModelB])).1,
   ((predict_model_selection twoModelEnsemble [1]).2.2
      ("random_forest", exampleModelB)
      (by norm_num [bestModel, twoModelEnsemble, exampleModelA,
        exampleModelB])).2.2
     ("logistic_regression", exampleModelA) (List.Mem.head _)⟩

/-- Claim C9: a student whose dropout_risk_score is missing or null is
treated as scoring 0: the badge shown is Low Risk, the "low" risk
filter matches, and the student never appears in the high-risk list
used for bulk notifications (for any positive threshold, 0.7 being the
default). -/
theorem missing_score_treated_low (t : ℚ) (ht : 0 < t)
    (students : List (Option ℚ)) :
    getRiskBadge none = RiskCategory.low ∧
    riskFilterMatches "low" none = true ∧
    none ∉ fetchHighRiskStudents t students := by
  refine ⟨rfl, ?_, ?_⟩
  · norm_num [riskFilterMatches, jsOr]
    decide
  · intro hmem
    unfold fetchHighRiskStudents at hmem
    have hkeep := (List.mem_filter.mp hmem).2
    simp only [decide_eq_true_eq, jsOr] at hkeep
    linarith

/-- Witness for C9: with the default threshold 0.7, a student with a
missing score gets the Low Risk badge, passes the low filter, and the
high-risk list built from a missing-score student and a 0.9-score
student contains only the latter. -/
theorem missing_score_treated_low_witness :
    getRiskBadge none = RiskCategory.low ∧
    riskFilterMatches "low" none = true ∧
    fetchHighRiskStudents (7/10) [none, some (9/10)] = [some (9/10)] :=
  ⟨(missing_score_treated_low (7/10) (by norm_num) [none, some (9/10)]).1,
   (missing_score_treated_low (7/10) (by norm_num) [none, some (9/10)]).2.1,
   by norm_num [fetchHighRiskStudents, jsOr]⟩

/-- Helper: the bulk-prediction comparator relation is transitive. -/
theorem predLe_trans (a b c : Prediction) (hab : predLe a b = true)
    (hbc : predLe b c = true) : predLe a c = true := by
  unfold predLe at *
  by_cases ha : a.risk_level = "high" <;>
    by_cases hb : b.risk_level = "high" <;>
    by_cases hc2 : c.risk_level = "high" <;>
    simp_all <;> linarith

/-- Helper: the bulk-prediction comparator relation is total. -/
theorem predLe_total (a b : Prediction) :
    predLe a b = true ∨ predLe b a = true := by
  unfold predLe
  by_cases ha : a.risk_level = "high" <;>
    by_cases hb : b.risk_level = "high" <;>
    simp_all <;> exact le_total _ _

/-- Claim C10: the displayed bulk-prediction list is a permutation of
the returned predictions in which every "high" prediction precedes
every non-"high" one, and any two predictions on the same side of
"high" appear in non-increasing order of probability_high_risk. -/
theorem sortedPredictions_high_first (l : List Prediction) :
    (sortedPredictions l).Perm l ∧
    List.Pairwise (fun a b =>
      (b.risk_level = "high" → a.risk_level = "high") ∧
      ((a.risk_level = "high" ↔ b.risk_level = "high") →
        b.probability_high_risk ≤ a.probability_high_risk))
      (sortedPredictions l) := by
  constructor
  · exact List.mergeSort_perm l predLe
  · have hs :=
      List.sorted_mergeSort
        (fun a b c hab hbc => predLe_trans a b c hab hbc)
        (fun a b => by rcases predLe_total a b with h | h <;> simp [h]) l
    refine List.Pairwise.imp ?_ hs
    intro a b hab
    unfold predLe at hab
    constructor
    · intro hbh
      by_cases ha : a.risk_level = "high"
      · exact ha
      · simp [ha, hbh] at hab
    · intro hiff
      by_cases ha : a.risk_level = "high" <;>
        by_cases hb : b.risk_level = "high" <;> simp_all

/-- Witness for C10: the sorted list over a concrete three-element
response is a permutation of that response. -/
theorem sortedPredictions_high_first_witness :
    (sortedPredictions
      [Prediction.mk "low" (1/10), Prediction.mk "high" (4/5),
       Prediction.mk "medium" (1/2)]).Perm
      [Prediction.mk "low" (1/10), Prediction.mk "high" (4/5),
       Prediction.mk "medium" (1/2)] :=
  (sortedPredictions_high_first
    [Prediction.mk "low" (1/10), Prediction.mk "high" (4/5),
     Prediction.mk "medium" (1/2)]).1
